import Mathlib

/-!
# Verification of `geemap-tools` against its specification

Shallow embedding of the claim-relevant parts of the `geemap_tools` package
(`analysis.py`, `clouds.py`, `io.py`, `catalog.py`/`gee_utils.py`).

Remote Earth Engine reductions, the shapefile writer and the filesystem are
external collaborators; they are modelled as explicit oracle parameters
(functions supplied to the embedded definitions), while every piece of logic
that lives in the repository's own code — grouping, summing, dict building,
retry loops, dispatch tables, scale lookups, sorting, zip assembly — is
translated directly from the source.
-/

namespace GeemapTools

/-! ## CHIRPS monthly pipeline (`analysis.get_CHIRPS`, monthly branch)

A daily CHIRPS image is modelled by its calendar date and its pixel raster
(`pix : Nat → ℚ`, pixels indexed by `Nat`).  A ROI is a list of pixel
indices.  `reduceRegion` with the mean reducer over a ROI is the arithmetic
mean of the pixel values inside the ROI; the source also requests
median/min/max/stdDev from the same summed raster, which play no role in the
claims and are omitted from the row model. -/

structure DailyImg where
  year : Nat
  month : Nat
  day : Nat
  pix : Nat → ℚ

/-- The `year_month` annotation attached by `annotate_month`. -/
def yearMonth (i : DailyImg) : Nat × Nat := (i.year, i.month)

/-- `chirps.filterDate(f"{year}-01-01", f"{year}-12-31")`: Earth Engine's
`filterDate` end bound is exclusive, so images dated December 31 of the year
are excluded. -/
def filterYear (y : Nat) (imgs : List DailyImg) : List DailyImg :=
  imgs.filter (fun i => i.year == y && !(i.month == 12 && i.day == 31))

/-- Fuel-driven model of `aggregate_array("year_month").distinct()`:
first occurrence order, duplicates dropped.  The fuel is the list length,
which always suffices. -/
def distinctAux : Nat → List (Nat × Nat) → List (Nat × Nat)
  | 0, _ => []
  | _, [] => []
  | fuel + 1, k :: rest => k :: distinctAux fuel (rest.filter (fun x => x != k))

def distinctKeys (l : List (Nat × Nat)) : List (Nat × Nat) :=
  distinctAux l.length l

/-- Pixelwise `ImageCollection.sum()` of the images of one month. -/
def sumPix (imgs : List DailyImg) : Nat → ℚ :=
  fun p => (imgs.map (fun i => i.pix p)).sum

/-- `reduceRegion` with the mean reducer over the ROI: `None` on an empty
pixel set, otherwise the mean of the raster over the ROI's pixels. -/
def reduceMean (f : Nat → ℚ) (roi : List Nat) : Option ℚ :=
  if roi = [] then none else some ((roi.map f).sum / (roi.length : ℚ))

/-- Chronological key of a `(year, month)` timestamp
(`pd.to_datetime("YYYY-MM")` ordering). -/
def dateKey (ym : Nat × Nat) : Nat := ym.1 * 12 + ym.2

/-- Comparison used for `df.sort_values("date")` on rows keyed by
`(year, month)`. -/
def rowLE {β : Type} (a b : (Nat × Nat) × β) : Bool :=
  decide (dateKey a.1 ≤ dateKey b.1)

/-- One iteration of the `for year in years` loop of the monthly branch:
annotate, list the distinct months, sum each month's images into one raster,
then reduce that summed raster over the ROI. -/
def monthRows (y : Nat) (imgs : List DailyImg) (roi : List Nat) :
    List ((Nat × Nat) × Option ℚ) :=
  let yimgs := filterYear y imgs
  let months := distinctKeys (yimgs.map yearMonth)
  months.map (fun m =>
    (m, reduceMean (sumPix (yimgs.filter (fun i => yearMonth i == m))) roi))

/-- `get_CHIRPS(roi, start, end, frequency="monthly")`: the year loop
(`range(int(start[:4]), int(end[:4]) + 1)`), per-year month rows,
`pd.concat`, then `df.sort_values("date")`.  `imgs` is the content of the
already date- and bounds-filtered collection returned by the service. -/
def get_CHIRPS_monthly (imgs : List DailyImg) (roi : List Nat)
    (startYear endYear : Nat) : List ((Nat × Nat) × Option ℚ) :=
  let years := List.range' startYear (endYear + 1 - startYear)
  let rows := years.flatMap (fun y => monthRows y imgs roi)
  rows.mergeSort rowLE

/-- A synthetic month: `n` daily images in `(y, m)`, every pixel `1.0` mm. -/
def constMonthImgs (y m n : Nat) : List DailyImg :=
  (List.range n).map (fun d => ⟨y, m, d + 1, fun _ => 1⟩)

/-! ## TerraClimate pipeline (`analysis.get_TerraClimate`)

Per-image `reduceRegion` results are an oracle `stats : String → Option ℚ`
keyed by column name `"{var}_{stat}"`.  The embedded function assembles the
rows, sorts them by date (`df.sort_values('date')`), then applies the
per-variable scale factors (`sf`, keyed by column). -/

structure TCImg where
  year : Nat
  month : Nat
  stats : String → Option ℚ

/-- The column set `variables × statistics`, fixed before any row. -/
def tcColumns (vars stats : List String) : List String :=
  vars.flatMap (fun v => stats.map (fun s => v ++ "_" ++ s))

def get_TerraClimate (imgs : List TCImg) (vars stats : List String)
    (sf : String → ℚ) : List ((Nat × Nat) × List (String × Option ℚ)) :=
  let rows := imgs.map (fun i =>
    ((i.year, i.month), (tcColumns vars stats).map (fun c => (c, i.stats c))))
  let sorted := rows.mergeSort rowLE
  sorted.map (fun r => (r.1, r.2.map (fun cv => (cv.1, cv.2.map (fun x => x * sf cv.1)))))

/-- Sortedness of a row list by its timestamp key. -/
def sortedByDate {β : Type} (rows : List ((Nat × Nat) × β)) : Prop :=
  rows.Pairwise (fun a b => dateKey a.1 ≤ dateKey b.1)

/-! ## `analysis.index_to_timeseries`

The per-image body (build the image, detect the scale, reduce the index over
the ROI) is the oracle `compute`; `compute i = none` models the `except`
branch (any raised exception), `some (m, s)` the computed mean and stdDev.
The source accumulates `index_means` and `index_stds` and attaches them as
two new columns of the input table. -/

def index_to_timeseries (ids : List String)
    (compute : String → Option (ℚ × ℚ)) : List (String × Option ℚ × Option ℚ) :=
  let index_means := ids.map (fun i => (compute i).map Prod.fst)
  let index_stds := ids.map (fun i => (compute i).map Prod.snd)
  ids.zip (index_means.zip index_stds)

/-- A 5-image computation where the 3rd image fails reduction. -/
def exCompute : String → Option (ℚ × ℚ) :=
  fun i => if i == "id3" then none else some (1, 2)

/-! ## Scale auto-detection lookups

`analysis.index_to_timeseries` (lines 55–66) and
`clouds.get_clear_sky_percentage` (lines 102–110) each infer the reduction
scale from band presence when `scale` is not supplied. -/

/-- Lookup in `index_to_timeseries`: `QA_PIXEL` ⇒ 30, else `SCL` ⇒ 20,
else 10. -/
def used_scale_index (bands : List String) : Nat :=
  if "QA_PIXEL" ∈ bands then 30
  else if "SCL" ∈ bands then 20
  else 10

/-- Lookup in `get_clear_sky_percentage`: `QA_PIXEL` ⇒ 30, else `SCL` ⇒ 10,
else `MSK_CLDPRB` ⇒ 20, else the initial default 10. -/
def used_scale_clearsky (bands : List String) : Nat :=
  if "QA_PIXEL" ∈ bands then 30
  else if "SCL" ∈ bands then 10
  else if "MSK_CLDPRB" ∈ bands then 20
  else 10

/-! ## `analysis.describe_roi` pixel estimates

`pixels_dict = { f"{int(res)}m": int(round(area_m2 / res**2)) for res in
resolutions }`.  Python's `round` ties to even; `int(res)` truncates toward
zero.  A Python dict keeps first-insertion position and overwrites the value
on a duplicate key. -/

/-- Python `round`: nearest integer, ties to the even integer. -/
def pyRound (q : ℚ) : ℤ :=
  if q - ⌊q⌋ < 1 / 2 then ⌊q⌋
  else if 1 / 2 < q - ⌊q⌋ then ⌊q⌋ + 1
  else if ⌊q⌋ % 2 = 0 then ⌊q⌋ else ⌊q⌋ + 1

/-- Python `int()` on a numeric value: truncation toward zero. -/
def truncInt (q : ℚ) : ℤ :=
  if 0 ≤ q then ⌊q⌋ else ⌈q⌉

/-- `int(round(area_m2 / res**2))`. -/
def pixel_estimate (area res : ℚ) : ℤ :=
  pyRound (area / res ^ 2)

/-- `f"{int(res)}m"`. -/
def pixelKey (res : ℚ) : String :=
  toString (truncInt res) ++ "m"

/-- Python dict insertion: overwrite in place on an existing key, append
otherwise. -/
def insertKV (m : List (String × ℤ)) (k : String) (v : ℤ) : List (String × ℤ) :=
  if m.any (fun p => p.1 == k) then
    m.map (fun p => if p.1 == k then (p.1, v) else p)
  else m ++ [(k, v)]

/-- The `n_pixels` mapping built by the dict comprehension. -/
def pixels_dict (area : ℚ) (resolutions : List ℚ) : List (String × ℤ) :=
  resolutions.foldl (fun m res => insertKV m (pixelKey res) (pixel_estimate area res)) []

/-! ## Temporary-directory cleanup (`analysis.extract_mapbiomas`, lines 891–902)

```
for _ in range(5):
    try: shutil.rmtree(temp_dir); break
    except PermissionError: time.sleep(1)
else:
    warn
```
One `shutil.rmtree` attempt either succeeds, raises `PermissionError`, or
raises some other exception; the oracle `rm i` gives the result of attempt
`i`. -/

inductive RmResult
  | ok
  | permErr
  | otherErr
deriving DecidableEq

inductive CleanupOutcome
  /-- `rmtree` succeeded on attempt `failures` (0-based) after `failures`
  caught `PermissionError`s, each followed by `time.sleep(1)`. -/
  | removed (failures : Nat)
  /-- all 5 attempts raised `PermissionError`; the `else` branch prints a
  warning and the function still returns. -/
  | warned
  /-- attempt `failures` raised an exception other than `PermissionError`,
  which is not caught and propagates out of `extract_mapbiomas`. -/
  | raised (failures : Nat)
deriving DecidableEq

def cleanupGo (rm : Nat → RmResult) : Nat → Nat → CleanupOutcome
  | 0, _ => CleanupOutcome.warned
  | fuel + 1, i =>
    match rm i with
    | RmResult.ok => CleanupOutcome.removed i
    | RmResult.permErr => cleanupGo rm fuel (i + 1)
    | RmResult.otherErr => CleanupOutcome.raised i

/-- The retry loop: at most 5 attempts starting at attempt 0. -/
def cleanup (rm : Nat → RmResult) : CleanupOutcome :=
  cleanupGo rm 5 0

/-- An outcome is fatal when an exception escapes the loop. -/
def CleanupOutcome.isFatal : CleanupOutcome → Bool
  | CleanupOutcome.raised _ => true
  | _ => false

/-! ## `analysis.extract_mapbiomas` control flow

Filesystem model: does the timestamp-suffixed working directory exist, and
which files it holds.  The function creates the directory, writes
`roi.geojson`, exports one `mapbiomas_{year}.tif` per retained year, then
runs `xr.concat` (which fails on a grid-shape mismatch — oracle
`concatRaises`), builds the dataset, and only then runs the cleanup loop.
There is no `try`/`finally`: an exception raised before the cleanup step
leaves the directory and its files on disk, carried here in the error
value. -/

structure FS where
  tempDirExists : Bool
  files : List String
deriving DecidableEq

def yearFile (y : Nat) : String := "mapbiomas_" ++ toString y ++ ".tif"

def concatErrMsg : String := "InconsistentGridShape: xr.concat shape mismatch"

def extract_mapbiomas_run (years : List Nat) (concatRaises : Bool)
    (rm : Nat → RmResult) : Except (FS × String) (FS × CleanupOutcome) :=
  let fs0 : FS := ⟨true, ["roi.geojson"]⟩
  let fs1 : FS := years.foldl (fun fs y => ⟨fs.tempDirExists, fs.files ++ [yearFile y]⟩) fs0
  if concatRaises then Except.error (fs1, concatErrMsg)
  else
    match cleanup rm with
    | CleanupOutcome.removed k => Except.ok (⟨false, []⟩, CleanupOutcome.removed k)
    | CleanupOutcome.warned => Except.ok (fs1, CleanupOutcome.warned)
    | CleanupOutcome.raised _ => Except.error (fs1, "rmtree: uncaught exception")

/-! ## `list_sat_images` (`catalog.py` = `gee_utils.py`) -/

inductive SensorFamily
  | landsat
  | sentinel
deriving DecidableEq

/-- `needle` begins `hay`. -/
def leadMatch : List Char → List Char → Bool
  | [], _ => true
  | _ :: _, [] => false
  | a :: as, b :: bs => a == b && leadMatch as bs

/-- `needle` occurs contiguously somewhere in the haystack
(Python `needle in hay`). -/
def occursIn (needle : List Char) : List Char → Bool
  | [] => leadMatch needle []
  | c :: cs => leadMatch needle (c :: cs) || occursIn needle cs

def toUpperStr (s : String) : String :=
  ⟨s.toList.map Char.toUpper⟩

/-- The dispatch on `collection_id.upper()`: `"LANDSAT" in …`, then
`"S2" in … or "SENTINEL" in …`, else unsupported. -/
def classify_collection (cid : String) : Option SensorFamily :=
  let up := (toUpperStr cid).toList
  if occursIn "LANDSAT".toList up then some SensorFamily.landsat
  else if occursIn "S2".toList up || occursIn "SENTINEL".toList up then
    some SensorFamily.sentinel
  else none

/-- The `SATELLITE_METADATA` property-name table for one family. -/
structure SatMetaKeys where
  satellite : String
  cloud : String
  elevation : String
  azimuth : String
  zenithToElevation : Bool

def landsatKeys : SatMetaKeys :=
  ⟨"SPACECRAFT_ID", "CLOUD_COVER", "SUN_ELEVATION", "SUN_AZIMUTH", false⟩

def sentinelKeys : SatMetaKeys :=
  ⟨"SPACECRAFT_NAME", "CLOUDY_PIXEL_PERCENTAGE", "MEAN_SOLAR_ZENITH_ANGLE",
   "MEAN_SOLAR_AZIMUTH_ANGLE", true⟩

def keysFor : SensorFamily → SatMetaKeys
  | SensorFamily.landsat => landsatKeys
  | SensorFamily.sentinel => sentinelKeys

structure ImgRow where
  id : String
  cloud : Option ℚ
  elevation : Option ℚ
  azimuth : Option ℚ

/-- One row of the metadata table; `props` is the image's property mapping.
One family stores solar zenith, converted via `90 - zenith`. -/
def mkRow (keys : SatMetaKeys) (props : String → Option ℚ) (iid : String) : ImgRow :=
  let e := props keys.elevation
  let e := if keys.zenithToElevation then e.map (fun z => 90 - z) else e
  ⟨iid, props keys.cloud, e, props keys.azimuth⟩

def unsupportedMsg (cid : String) : String :=
  "unsupported collection " ++ cid ++ ": only LANDSAT or SENTINEL"

/-- `list_sat_images`: ROI check, then collection dispatch — both before the
image ids are enumerated (`ids`/`props` model the service's listing and
per-image properties). -/
def list_sat_images (cid : String) (roi : Option Nat) (ids : List String)
    (props : String → String → Option ℚ) : Except String (List ImgRow) :=
  match roi with
  | none => Except.error "ROI required"
  | some _ =>
    match classify_collection cid with
    | none => Except.error (unsupportedMsg cid)
    | some fam => Except.ok (ids.map (fun i => mkRow (keysFor fam) (props i) i))

/-! ## `io.roi_to_file`, `format='shp'`

`gdf.to_file(tmp_shp)` is the external shapefile writer; `producedOnDisk e`
says whether the component with extension `e` exists in the scratch
directory.  The zip loop adds, in order, each of the five candidate
extensions that exists, and nothing else. -/

def shp_component_exts : List String := [".shp", ".shx", ".dbf", ".prj", ".cpg"]

def zip_members (producedOnDisk : String → Bool) : List String :=
  shp_component_exts.filter producedOnDisk

/-! ## Helper lemmas -/

theorem zip_map_map {α β γ : Type} (l : List α) (f : α → β) (g : α → γ) :
    l.zip ((l.map f).zip (l.map g)) = l.map (fun i => (i, f i, g i)) := by
  induction l with
  | nil => rfl
  | cons a t ih => simp [ih]

theorem foldl_files (years : List Nat) (b : Bool) (l : List String) :
    years.foldl (fun fs y => (⟨fs.tempDirExists, fs.files ++ [yearFile y]⟩ : FS)) ⟨b, l⟩
      = ⟨b, l ++ years.map yearFile⟩ := by
  induction years generalizing l with
  | nil => simp
  | cons y ys ih => simp [ih]

theorem le_pyRound (q : ℚ) : q - 1 / 2 ≤ (pyRound q : ℚ) := by
  have h0 : (⌊q⌋ : ℚ) ≤ q := Int.floor_le q
  have h1 : q < ⌊q⌋ + 1 := Int.lt_floor_add_one q
  unfold pyRound
  split_ifs with a b c <;> push_cast <;> linarith

theorem pyRound_le (q : ℚ) : (pyRound q : ℚ) ≤ q + 1 / 2 := by
  have h0 : (⌊q⌋ : ℚ) ≤ q := Int.floor_le q
  have h1 : q < ⌊q⌋ + 1 := Int.lt_floor_add_one q
  unfold pyRound
  split_ifs with a b c <;> push_cast <;> linarith

theorem pyRound_lt_pyRound {a b : ℚ} (h : a + 1 < b) : pyRound a < pyRound b := by
  have h1 := pyRound_le a
  have h2 := le_pyRound b
  have hq : (pyRound a : ℚ) < (pyRound b : ℚ) := by linarith
  exact_mod_cast hq

theorem rowLE_trans {β : Type} :
    ∀ a b c : (Nat × Nat) × β, rowLE a b → rowLE b c → rowLE a c := by
  intro a b c hab hbc
  simp only [rowLE, decide_eq_true_eq] at *
  omega

theorem rowLE_total {β : Type} :
    ∀ a b : (Nat × Nat) × β, rowLE a b || rowLE b a := by
  intro a b
  simp only [rowLE, Bool.or_eq_true, decide_eq_true_eq]
  omega

theorem sortedByDate_mergeSort {β : Type} (rows : List ((Nat × Nat) × β)) :
    sortedByDate (rows.mergeSort rowLE) := by
  have h := List.sorted_mergeSort rowLE_trans rowLE_total rows
  exact h.imp (by intro a b hab; simpa [rowLE] using hab)

theorem distinctAux_nil (fuel : Nat) : distinctAux fuel [] = [] := by
  cases fuel <;> rfl

theorem filter_bne_replicate (n : Nat) (k : Nat × Nat) :
    (List.replicate n k).filter (fun x => x != k) = [] := by
  rw [List.filter_eq_nil_iff]
  intro a ha
  simp [List.eq_of_mem_replicate ha]

theorem distinctKeys_replicate (n : Nat) (k : Nat × Nat) (hn : 0 < n) :
    distinctKeys (List.replicate n k) = [k] := by
  obtain ⟨m, rfl⟩ : ∃ m, n = m + 1 := ⟨n - 1, by omega⟩
  unfold distinctKeys
  rw [List.length_replicate, List.replicate_succ]
  show k :: distinctAux m ((List.replicate m k).filter (fun x => x != k)) = [k]
  rw [filter_bne_replicate, distinctAux_nil]

theorem filterYear_constMonth (y m n : Nat) (hm : m ≠ 12) :
    filterYear y (constMonthImgs y m n) = constMonthImgs y m n := by
  unfold filterYear
  rw [List.filter_eq_self]
  intro i hi
  obtain ⟨d, _, rfl⟩ := List.mem_map.mp hi
  simp [hm]

theorem map_yearMonth_constMonth (y m n : Nat) :
    (constMonthImgs y m n).map yearMonth = List.replicate n (y, m) := by
  unfold constMonthImgs
  rw [List.map_map]
  have hc : (yearMonth ∘ fun d => (⟨y, m, d + 1, fun _ => 1⟩ : DailyImg)) = fun _ => (y, m) := rfl
  rw [hc, List.map_const', List.length_range]

theorem filter_month_constMonth (y m n : Nat) :
    (constMonthImgs y m n).filter (fun i => yearMonth i == (y, m)) = constMonthImgs y m n := by
  rw [List.filter_eq_self]
  intro i hi
  obtain ⟨d, _, rfl⟩ := List.mem_map.mp hi
  simp [yearMonth]

theorem sumPix_constMonth (y m n : Nat) (p : Nat) :
    sumPix (constMonthImgs y m n) p = n := by
  unfold sumPix constMonthImgs
  rw [List.map_map]
  have hc : ((fun i : DailyImg => i.pix p) ∘ fun d => (⟨y, m, d + 1, fun _ => 1⟩ : DailyImg))
      = fun _ => (1 : ℚ) := rfl
  rw [hc, List.map_const', List.length_range, List.sum_replicate, nsmul_eq_mul, mul_one]

theorem reduceMean_const (c : ℚ) (roi : List Nat) (f : Nat → ℚ)
    (hf : ∀ p, f p = c) (hroi : roi ≠ []) :
    reduceMean f roi = some c := by
  unfold reduceMean
  rw [if_neg hroi]
  have hmap : roi.map f = List.replicate roi.length c := by
    rw [List.map_congr_left (fun p _ => hf p), List.map_const']
  have hl : (roi.length : ℚ) ≠ 0 :=
    Nat.cast_ne_zero.mpr (List.length_pos.mpr hroi).ne'
  rw [hmap, List.sum_replicate, nsmul_eq_mul, mul_div_cancel_left₀ _ hl]

theorem monthRows_constMonth (y m n : Nat) (roi : List Nat)
    (hroi : roi ≠ []) (hm : m ≠ 12) (hn : 0 < n) :
    monthRows y (constMonthImgs y m n) roi = [((y, m), some (n : ℚ))] := by
  unfold monthRows
  dsimp only
  rw [filterYear_constMonth y m n hm, map_yearMonth_constMonth,
    distinctKeys_replicate n (y, m) hn]
  simp only [List.map_cons, List.map_nil]
  rw [filter_month_constMonth,
    reduceMean_const (n : ℚ) roi _ (sumPix_constMonth y m n) hroi]

theorem monthRows_constMonth_ne (y' y m n : Nat) (roi : List Nat) (hne : y' ≠ y) :
    monthRows y' (constMonthImgs y m n) roi = [] := by
  unfold monthRows
  dsimp only
  have hf : filterYear y' (constMonthImgs y m n) = [] := by
    unfold filterYear
    rw [List.filter_eq_nil_iff]
    intro i hi
    obtain ⟨d, _, rfl⟩ := List.mem_map.mp hi
    simp [Ne.symm hne]
  rw [hf]
  simp [distinctKeys, distinctAux]

theorem flatMap_monthRows (y m n startY endY : Nat) (roi : List Nat)
    (hroi : roi ≠ []) (hm : m ≠ 12) (hn : 0 < n)
    (h1 : startY ≤ y) (h2 : y ≤ endY) :
    (List.range' startY (endY + 1 - startY)).flatMap
        (fun a => monthRows a (constMonthImgs y m n) roi)
      = [((y, m), some (n : ℚ))] := by
  have hsplit : endY + 1 - startY = ((endY + 1) - y) + (y - startY) := by omega
  rw [hsplit, ← List.range'_append_1]
  have hy : startY + (y - startY) = y := by omega
  rw [hy, List.flatMap_append]
  have hleft : (List.range' startY (y - startY)).flatMap
      (fun a => monthRows a (constMonthImgs y m n) roi) = [] := by
    rw [List.flatMap_eq_nil_iff]
    intro a ha
    obtain ⟨i, hi, rfl⟩ := List.mem_range'.mp ha
    exact monthRows_constMonth_ne _ y m n roi (by omega)
  have hstep : (endY + 1) - y = (endY - y) + 1 := by omega
  rw [hleft, List.nil_append, hstep, List.range'_succ, List.flatMap_cons]
  have hright : (List.range' (y + 1) (endY - y)).flatMap
      (fun a => monthRows a (constMonthImgs y m n) roi) = [] := by
    rw [List.flatMap_eq_nil_iff]
    intro a ha
    obtain ⟨i, hi, rfl⟩ := List.mem_range'.mp ha
    exact monthRows_constMonth_ne _ y m n roi (by omega)
  rw [hright, monthRows_constMonth y m n roi hroi hm hn, List.append_nil]

/-! ## Claim theorems -/

/-- C2: `index_to_timeseries` returns one row per entry of the `id` column;
a row whose per-image computation raised carries `None` for both the
`<index>_mean` and `<index>_std` entries, the other rows keep their computed
values, and a per-image failure never aborts the sequence (the function is
total in the failure oracle).  The third conjunct is the spec's instance:
5 identifiers with the 3rd failing give a 5-row table with `None` at row 3
for both columns and real values elsewhere. -/
theorem index_to_timeseries_partial_failure :
    (∀ ids compute, (index_to_timeseries ids compute).length = ids.length) ∧
    (∀ ids compute, index_to_timeseries ids compute
        = ids.map (fun i => (i, (compute i).map Prod.fst, (compute i).map Prod.snd))) ∧
    index_to_timeseries ["id1", "id2", "id3", "id4", "id5"] exCompute
      = [("id1", some 1, some 2), ("id2", some 1, some 2), ("id3", none, none),
         ("id4", some 1, some 2), ("id5", some 1, some 2)] := by
  refine ⟨?_, ?_, ?_⟩
  · intro ids compute
    simp [index_to_timeseries, zip_map_map]
  · intro ids compute
    simp [index_to_timeseries, zip_map_map]
  · rfl

/-- C4 counterexample: on an image whose bands contain the Sentinel-2
scene-classification band `SCL` (and no `QA_PIXEL`), `index_to_timeseries`
auto-detects 20 m but `get_clear_sky_percentage` auto-detects 10 m — the two
operations do not use the same lookup, and the clear-sky lookup does not map
`SCL` to 20 m as claimed. -/
theorem scale_lookup_differs_on_SCL :
    used_scale_index ["SCL"] = 20 ∧ used_scale_clearsky ["SCL"] = 10 := by
  decide

/-- C4 (amended): `index_to_timeseries` infers `QA_PIXEL` ⇒ 30 m, else
`SCL` ⇒ 20 m, else 10 m, but `get_clear_sky_percentage` uses its own lookup
(`QA_PIXEL` ⇒ 30, else `SCL` ⇒ 10, else `MSK_CLDPRB` ⇒ 20, else 10): the two
lookups agree exactly when `QA_PIXEL` is present or neither `SCL` nor
`MSK_CLDPRB` is. -/
theorem scale_lookup_agreement (bands : List String) :
    used_scale_index bands = used_scale_clearsky bands ↔
      ("QA_PIXEL" ∈ bands ∨ ("SCL" ∉ bands ∧ "MSK_CLDPRB" ∉ bands)) := by
  by_cases h1 : "QA_PIXEL" ∈ bands <;> by_cases h2 : "SCL" ∈ bands <;>
    by_cases h3 : "MSK_CLDPRB" ∈ bands <;>
    simp [used_scale_index, used_scale_clearsky, h1, h2, h3]

/-- C7: when the shapefile writer has produced all five component files,
the zip assembled by `roi_to_file` with `format='shp'` contains exactly the
five members `.shp`, `.shx`, `.dbf`, `.prj`, `.cpg`; unconditionally, no
member with another extension is ever added. -/
theorem roi_to_file_shp_zip_members (produced : String → Bool)
    (hall : ∀ e ∈ shp_component_exts, produced e = true) :
    zip_members produced = shp_component_exts ∧
    ∀ m ∈ zip_members produced, m ∈ shp_component_exts := by
  constructor
  · exact List.filter_eq_self.mpr hall
  · intro m hm
    exact List.mem_of_mem_filter hm

/-- Witness for C7 at a writer that produced every component file. -/
theorem roi_to_file_shp_zip_members_witness :
    zip_members (fun _ => true) = shp_component_exts :=
  (roi_to_file_shp_zip_members (fun _ => true) (fun _ _ => rfl)).1

/-- C8: whenever the collection id is recognized as neither Landsat nor
Sentinel, `list_sat_images` fails with the unsupported-collection error; the
result does not depend on the image listing (`ids`) or the per-image
properties (`props`), so the failure happens before any image is listed and
no fallback metadata is produced. -/
theorem list_sat_images_unsupported (cid : String) (r : Nat) (ids : List String)
    (props : String → String → Option ℚ) (h : classify_collection cid = none) :
    list_sat_images cid (some r) ids props = Except.error (unsupportedMsg cid) := by
  simp [list_sat_images, h]

/-- Witness for C8: a MODIS collection id is classified as neither family
and is rejected. -/
theorem list_sat_images_unsupported_witness :
    classify_collection "MODIS/061/MOD13Q1" = none ∧
    list_sat_images "MODIS/061/MOD13Q1" (some 0) [] (fun _ _ => none)
      = Except.error (unsupportedMsg "MODIS/061/MOD13Q1") :=
  ⟨rfl, list_sat_images_unsupported "MODIS/061/MOD13Q1" 0 [] (fun _ _ => none) rfl⟩

/-- C9: if `extract_mapbiomas` raises at the time-axis concatenation (after
creating its timestamp-suffixed working directory), the error escapes with
the working directory still present and still holding `roi.geojson` together
with every per-year file written by the export loop: cleanup runs only on
the success path. -/
theorem extract_mapbiomas_concat_error_state (years : List Nat) (rm : Nat → RmResult) :
    extract_mapbiomas_run years true rm
      = Except.error (⟨true, "roi.geojson" :: years.map yearFile⟩, concatErrMsg) := by
  simp [extract_mapbiomas_run, foldl_files]

/-- C3 counterexample: when `shutil.rmtree` raises an exception that is not
a `PermissionError`, the removal failure is fatal — the exception escapes
the retry loop on the first attempt instead of being downgraded to a
warning. -/
theorem cleanup_other_exception_fatal :
    (cleanup (fun _ => RmResult.otherErr)).isFatal = true ∧
    cleanup (fun _ => RmResult.otherErr) = CleanupOutcome.raised 0 := by
  decide

/-- C3 (amended): removal of the working directory is attempted up to 5
times with a 1-second sleep after each failed attempt, but only
`PermissionError` is caught: provided no attempt raises a different
exception, the failure is never fatal, and if all 5 attempts raise
`PermissionError` the loop ends in the warning branch and the function still
returns its result. -/
theorem cleanup_retry_permission_only (rm : Nat → RmResult)
    (h : ∀ i, i < 5 → rm i ≠ RmResult.otherErr) :
    (cleanup rm).isFatal = false ∧
    ((∀ i, i < 5 → rm i = RmResult.permErr) → cleanup rm = CleanupOutcome.warned) := by
  constructor
  · have h0 := h 0 (by omega)
    have h1 := h 1 (by omega)
    have h2 := h 2 (by omega)
    have h3 := h 3 (by omega)
    have h4 := h 4 (by omega)
    cases e0 : rm 0 <;> cases e1 : rm 1 <;> cases e2 : rm 2 <;>
      cases e3 : rm 3 <;> cases e4 : rm 4 <;>
      simp_all [cleanup, cleanupGo, CleanupOutcome.isFatal]
  · intro hp
    have e0 := hp 0 (by omega)
    have e1 := hp 1 (by omega)
    have e2 := hp 2 (by omega)
    have e3 := hp 3 (by omega)
    have e4 := hp 4 (by omega)
    simp [cleanup, cleanupGo, e0, e1, e2, e3, e4]

/-- Witness for C3 (amended): five straight `PermissionError`s end in the
warning branch, not in an escaping exception. -/
theorem cleanup_retry_permission_only_witness :
    (cleanup (fun _ => RmResult.permErr)).isFatal = false ∧
    cleanup (fun _ => RmResult.permErr) = CleanupOutcome.warned := by
  have h := cleanup_retry_permission_only (fun _ => RmResult.permErr)
    (fun i _ => by simp)
  exact ⟨h.1, h.2 (fun i _ => rfl)⟩

/-- C10: the `n_pixels` keys are formatted from the integer part of each
resolution, so the two requested resolutions 10 and 10.5 collide on the key
`"10m"` and only the later resolution's estimate survives: the mapping has
one entry for two requested resolutions. -/
theorem describe_roi_key_collision (area : ℚ) :
    pixels_dict area [10, 21 / 2] = [("10m", pixel_estimate area (21 / 2))] ∧
    (pixels_dict area [10, 21 / 2]).length = 1 := by
  have h10 : pixelKey 10 = "10m" := by
    have ht : truncInt 10 = 10 := by norm_num [truncInt]
    rw [pixelKey, ht]; rfl
  have h105 : pixelKey (21 / 2) = "10m" := by
    have ht : truncInt (21 / 2) = 10 := by norm_num [truncInt]
    rw [pixelKey, ht]; rfl
  have key : pixels_dict area [10, 21 / 2] = [("10m", pixel_estimate area (21 / 2))] := by
    simp [pixels_dict, insertKV, h10, h105]
  exact ⟨key, by simp [key]⟩

/-- C6 counterexample: for a region of 100 m² the pixel estimates at 60 m
and 100 m resolution are both 0, so the estimate is not strictly decreasing
over the resolutions {1, 10, 30, 60, 100} for every region. -/
theorem pixel_estimate_not_strictly_decreasing :
    pixel_estimate 100 60 = 0 ∧ pixel_estimate 100 100 = 0 ∧
    ¬ pixel_estimate 100 100 < pixel_estimate 100 60 := by
  have h60 : pixel_estimate 100 60 = 0 := by
    unfold pixel_estimate pyRound
    norm_num
  have h100 : pixel_estimate 100 100 = 0 := by
    unfold pixel_estimate pyRound
    norm_num
  refine ⟨h60, h100, ?_⟩
  rw [h60, h100]
  omega

/-- C6 (amended): `describe_roi` estimates the pixel count at resolution `r`
as `int(round(area_m2 / r**2))`, and over the resolutions {1, 10, 30, 60,
100} this estimate is strictly decreasing for every region whose area
exceeds 5625 m² (the threshold forced by rounding at the coarsest pair
60 m/100 m); for smaller regions consecutive estimates can tie. -/
theorem pixel_estimate_strict_decrease_large_area (area : ℚ) (h : 5625 < area) :
    pixel_estimate area 10 < pixel_estimate area 1 ∧
    pixel_estimate area 30 < pixel_estimate area 10 ∧
    pixel_estimate area 60 < pixel_estimate area 30 ∧
    pixel_estimate area 100 < pixel_estimate area 60 := by
  unfold pixel_estimate
  refine ⟨pyRound_lt_pyRound ?_, pyRound_lt_pyRound ?_,
    pyRound_lt_pyRound ?_, pyRound_lt_pyRound ?_⟩ <;> norm_num <;> linarith

/-- Witness for C6 (amended) at a 1 km² region. -/
theorem pixel_estimate_strict_decrease_witness :
    (5625 : ℚ) < 1000000 ∧
    (pixel_estimate 1000000 10 < pixel_estimate 1000000 1 ∧
     pixel_estimate 1000000 30 < pixel_estimate 1000000 10 ∧
     pixel_estimate 1000000 60 < pixel_estimate 1000000 30 ∧
     pixel_estimate 1000000 100 < pixel_estimate 1000000 60) :=
  ⟨by norm_num, pixel_estimate_strict_decrease_large_area 1000000 (by norm_num)⟩

/-- C5: the tables returned by the time-series extractors are sorted
ascending by their timestamp key after assembly, for every order of the
per-bucket inputs — in particular for buckets supplied in reverse order. -/
theorem extractors_sorted_by_timestamp :
    (∀ imgs vars stats sf, sortedByDate (get_TerraClimate imgs vars stats sf)) ∧
    (∀ imgs roi startYear endYear,
      sortedByDate (get_CHIRPS_monthly imgs roi startYear endYear)) := by
  constructor
  · intro imgs vars stats sf
    unfold get_TerraClimate sortedByDate
    rw [List.pairwise_map]
    exact (sortedByDate_mergeSort _).imp (fun hab => hab)
  · intro imgs roi startYear endYear
    unfold get_CHIRPS_monthly
    exact sortedByDate_mergeSort _

/-- C1: `get_CHIRPS` with `frequency='monthly'` groups the daily images by
calendar month within each year, sums each month's images pixelwise into one
per-month raster, and only then reduces that summed raster over the ROI:
for a month of `n` daily images each contributing a constant 1.0 mm over a
nonempty ROI and a date range covering the month's year, the single reported
row carries the total `n` mm (so 30.0 mm for 30 days), not the daily average
1.0 mm. -/
theorem chirps_monthly_total (y m n startY endY : Nat) (roi : List Nat)
    (hroi : roi ≠ []) (hm : m ≠ 12) (hn : 0 < n)
    (h1 : startY ≤ y) (h2 : y ≤ endY) :
    get_CHIRPS_monthly (constMonthImgs y m n) roi startY endY
      = [((y, m), some (n : ℚ))] := by
  simp only [get_CHIRPS_monthly]
  rw [flatMap_monthRows y m n startY endY roi hroi hm hn h1 h2]
  exact List.mergeSort_singleton _

/-- Witness for C1: 30 daily images of June 2020, each 1.0 mm over a 3-pixel
ROI, report the monthly total 30.0 mm. -/
theorem chirps_monthly_total_witness :
    get_CHIRPS_monthly (constMonthImgs 2020 6 30) [0, 1, 2] 2020 2020
      = [((2020, 6), some (30 : ℚ))] :=
  chirps_monthly_total 2020 6 30 2020 2020 [0, 1, 2]
    (by decide) (by decide) (by decide) (by decide) (by decide)

end GeemapTools
